import Mathlib

/-!
Verification of the connection-level I/O engine (`TEpollSocket`) of the
treefrog framework: a shallow embedding of `src/tepollsocket.cpp` in Lean 4.

OS primitives (`tf_accept4`, `tf_recv`, `tf_send`) are modelled by oracles:
lists of results the syscalls would return, consumed in order.  Machine
integers are modelled by `Int`/`Nat` (no arithmetic in the source can
overflow in the scenarios considered: byte counts and errno values).
-/

namespace Epoll

/-- Linux errno for "resource temporarily unavailable" (would-block). -/
def EAGAIN : Nat := 11

/-- Linux errno for "connection reset by peer". -/
def ECONNRESET : Nat := 104

/-- Linux errno for "broken pipe". -/
def EPIPE : Nat := 32

/-- Logging level of a system-log call made during an operation. -/
inductive LogLevel where
  | noLog
  | debugLog
  | errorLog
  | warnLog
deriving DecidableEq, Repr

/-- Access-log accumulator attached to each outbound buffer.
`responseBytes` mirrors `TAccessLogger::responseBytes`/`setResponseBytes`;
`written` records whether `TAccessLogger::write()` (flush of the record)
has been called. -/
structure TAccessLogger where
  responseBytes : Int
  written : Bool
deriving DecidableEq, Repr

/-- Modelled from the spec: `TSendBuffer` (its source is not part of the
extracted core).  The payload is either an in-memory byte sequence
(`arrayBuffer` with `bodyFile = none`) or a header byte sequence
(`arrayBuffer`) followed by a file-backed byte stream (`bodyFile = some f`,
with `autoRemove` deleting the backing file once fully sent).  `cursor`
counts the bytes already consumed, monotonically increasing. -/
structure TSendBuffer where
  arrayBuffer : List Nat
  bodyFile : Option (List Nat)
  autoRemove : Bool
  cursor : Nat
  logger : TAccessLogger
deriving DecidableEq, Repr

namespace TSendBuffer

/-- Modelled from the spec: the full payload of an outbound buffer —
the header (or in-memory data) followed by the file body when present. -/
def payload (b : TSendBuffer) : List Nat :=
  b.arrayBuffer ++ (b.bodyFile.getD [])

/-- Modelled from the spec: `TSendBuffer::getData` — the next chunk,
starting at the cursor, bounded by the shared send chunk size; reports
zero bytes available when the payload is fully consumed. -/
def getData (b : TSendBuffer) (chunk : Nat) : List Nat :=
  (b.payload.drop b.cursor).take chunk

/-- Modelled from the spec: `TSendBuffer::seekData` — advance the cursor
by the number of bytes actually transmitted. -/
def seekData (b : TSendBuffer) (len : Nat) : TSendBuffer :=
  { b with cursor := b.cursor + len }

/-- Modelled from the spec: the completion predicate — true when the
cursor has consumed the entire payload. -/
def atEnd (b : TSendBuffer) : Bool :=
  b.payload.length ≤ b.cursor

/-- One successful write of `len` bytes: advance the cursor and add the
transmitted length to the logger's `responseBytes`
(`buf->seekData(len); logger.setResponseBytes(logger.responseBytes() + len)`). -/
def advance (b : TSendBuffer) (len : Nat) : TSendBuffer :=
  { b.seekData len with
    logger := { b.logger with responseBytes := b.logger.responseBytes + len } }

/-- Set the logger's failure sentinel (`logger.setResponseBytes(-1)`). -/
def setSentinel (b : TSendBuffer) : TSendBuffer :=
  { b with logger := { b.logger with responseBytes := -1 } }

/-- Flush the access-log record (`logger.write()`). -/
def flush (b : TSendBuffer) : TSendBuffer :=
  { b with logger := { b.logger with written := true } }

end TSendBuffer

/-- The socket handle: `TEpollSocket`'s state.  `sd` is the descriptor
(`0` means closed), `recvBuf` the accumulated receive buffer, `sendBuf`
the FIFO queue of outbound buffers, `deleting` the one-way deletion flag
and `myWorkerCounter` the in-flight worker reference count. -/
structure TEpollSocket where
  deleting : Bool
  myWorkerCounter : Nat
  sd : Int
  clientAddr : Nat
  recvBuf : List Nat
  sendBuf : List TSendBuffer
deriving DecidableEq, Repr

/-- Constructor `TEpollSocket(socketDescriptor, address)`: flag false,
worker counter zero, empty buffers. -/
def mkTEpollSocket (fd : Int) (addr : Nat) : TEpollSocket :=
  { deleting := false, myWorkerCounter := 0, sd := fd, clientAddr := addr,
    recvBuf := [], sendBuf := [] }

namespace TEpollSocket

/-- `TEpollSocket::create`: constructs a handle (and triggers the shared
buffer-sizing initialization, reported by the boolean) only for a strictly
positive descriptor; otherwise returns null with no side effect. -/
def create (fd : Int) (addr : Nat) : Option TEpollSocket × Bool :=
  if 0 < fd then (some (mkTEpollSocket fd addr), true) else (none, false)

/-- Outcome of `TEpollSocket::accept`. -/
structure AcceptOutcome where
  handle : Option TEpollSocket
  initTriggered : Bool
  log : LogLevel
deriving DecidableEq, Repr

/-- `TEpollSocket::accept(listeningSocket)`: `fd`/`errno` are the result of
the `tf_accept4` primitive and `addr` the captured peer address.  A
negative descriptor is a failure: silent for `EAGAIN`, a warning otherwise;
a non-negative descriptor is handed to `create`. -/
def accept (fd : Int) (errno : Nat) (addr : Nat) : AcceptOutcome :=
  if fd < 0 then
    { handle := none, initTriggered := false,
      log := if errno ≠ EAGAIN then LogLevel.warnLog else LogLevel.noLog }
  else
    let c := create fd addr
    { handle := c.1, initTriggered := c.2, log := LogLevel.noLog }

/-- `TEpollSocket::close()`: close the descriptor once, guarded by `sd > 0`. -/
def close (s : TEpollSocket) : TEpollSocket :=
  if 0 < s.sd then { s with sd := 0 } else s

/-- `TEpollSocket::~TEpollSocket()`: close the descriptor and destroy every
queued outbound buffer (`delete p` — no access-log flush).  Returns the new
state and the buffers destroyed, exactly as they were queued. -/
def destruct (s : TEpollSocket) : TEpollSocket × List TSendBuffer :=
  ({ s.close with sendBuf := [] }, s.sendBuf)

/-- `TEpollSocket::deleteLater()`: set `deleting` and, when the worker
counter is zero at that instant, schedule immediate destruction (the
boolean result mirrors the call to `QObject::deleteLater()`). -/
def deleteLater (s : TEpollSocket) : TEpollSocket × Bool :=
  ({ s with deleting := true }, s.myWorkerCounter == 0)

/-- `TEpollSocket::enqueueSendData(buffer)`: append at the queue tail. -/
def enqueueSendData (s : TEpollSocket) (b : TSendBuffer) : TEpollSocket :=
  { s with sendBuf := s.sendBuf ++ [b] }

/-- One iteration of the `bufferedBytes` loop: add `d->arrayBuffer.size()`
and, when a body file is present, `d->bodyFile->size()`. -/
def bufferedStep (acc : Int) (d : TSendBuffer) : Int :=
  acc + d.arrayBuffer.length +
    (match d.bodyFile with
     | some f => (f.length : Int)
     | none => 0)

/-- `TEpollSocket::bufferedBytes()`: as coded, the sum over the queue of
`d->arrayBuffer.size()` plus, when a body file is present, `d->bodyFile->size()`. -/
def bufferedBytes (s : TEpollSocket) : Int :=
  s.sendBuf.foldl bufferedStep 0

/-- `TEpollSocket::bufferedListCount()`: number of queued buffers. -/
def bufferedListCount (s : TEpollSocket) : Nat :=
  s.sendBuf.length

/-- An action delegated to the external readiness/dispatch component
(`TEpoll::instance()->set...`). -/
inductive DispatchAction where
  | setSendDataFile (header : List Nat) (autoRemove : Bool)
  | setSendData (data : List Nat)
  | setDisconnect
  | setSwitchToWebSocket
deriving DecidableEq, Repr

/-- `TEpollSocket::sendData(header, body, autoRemove, logger)`: delegates to
the dispatcher unless `deleting` is set. -/
def sendDataFile (s : TEpollSocket) (header : List Nat) (autoRemove : Bool) :
    Option DispatchAction :=
  if !s.deleting then some (DispatchAction.setSendDataFile header autoRemove)
  else none

/-- `TEpollSocket::sendData(data)`: delegates to the dispatcher unless
`deleting` is set. -/
def sendData (s : TEpollSocket) (data : List Nat) : Option DispatchAction :=
  if !s.deleting then some (DispatchAction.setSendData data) else none

/-- `TEpollSocket::disconnect()`: delegates to the dispatcher unless
`deleting` is set. -/
def disconnect (s : TEpollSocket) : Option DispatchAction :=
  if !s.deleting then some DispatchAction.setDisconnect else none

/-- `TEpollSocket::switchToWebSocket(header)`: delegates to the dispatcher
unless `deleting` is set. -/
def switchToWebSocket (s : TEpollSocket) : Option DispatchAction :=
  if !s.deleting then some DispatchAction.setSwitchToWebSocket else none

/-! ## The receive loop -/

/-- One result of the `tf_recv` primitive: the returned length, the errno
after the call (`errno` is reset to `0` before each call), and the bytes it
deposited in the receive buffer. -/
structure RecvRes where
  len : Int
  errno : Nat
  bytes : List Nat
deriving DecidableEq, Repr

/-- The read loop of `TEpollSocket::recv`: append bytes while reads return a
positive length; stop at the first non-positive result and report its errno.
`none` means the oracle ran out while reads kept succeeding (the real loop
would still be running), so no classification is produced. -/
def recvLoop : List Nat → List RecvRes → List Nat × Option Nat
  | acc, [] => (acc, none)
  | acc, r :: rest =>
    if r.len ≤ 0 then (acc, some r.errno)
    else recvLoop (acc ++ r.bytes.take r.len.toNat) rest

/-- The error classification of `TEpollSocket::recv`: `EAGAIN` is success
with no log; errno `0` (a zero-length read) or `ECONNRESET` is a disconnect
with a debug-level log; anything else is a disconnect with an error-level log. -/
def recvClassify (err : Nat) : Int × LogLevel :=
  if err = EAGAIN then (0, LogLevel.noLog)
  else if err = 0 ∨ err = ECONNRESET then (-1, LogLevel.debugLog)
  else (-1, LogLevel.errorLog)

/-- `TEpollSocket::recv()`: drain the socket via `recvLoop`, then classify
the captured errno.  The second component is `none` exactly when the oracle
was exhausted mid-loop (a model artifact, never taken under a terminating
oracle). -/
def recv (s : TEpollSocket) (oracle : List RecvRes) :
    TEpollSocket × Option (Int × LogLevel) :=
  let r := recvLoop s.recvBuf oracle
  ({ s with recvBuf := r.1 }, r.2.map recvClassify)

/-! ## The send loop -/

/-- One result of the `tf_send` primitive: the returned length and the errno
after the call (`errno` is reset to `0` before each call). -/
structure SendRes where
  len : Int
  errno : Nat
deriving DecidableEq, Repr

/-- The write loop of `TEpollSocket::send`, acting on the head buffer:
each iteration asks `getData` for the next chunk (stopping, with the errno
of the last attempt, when it reports zero bytes); otherwise it performs one
`tf_send`, and on a positive result advances the cursor and the logger's
byte count and loops again, while a non-positive result stops the loop with
that attempt's errno.  Returns the updated buffer, the captured errno, the
bytes handed to successful writes, and the number of `tf_send` calls; an
exhausted oracle stops the loop as a model cutoff. -/
def sendLoop (chunk : Nat) : TSendBuffer → Nat → List SendRes →
    TSendBuffer × Nat × List Nat × Nat
  | buf, err, [] => (buf, err, [], 0)
  | buf, err, r :: rest =>
    if (buf.getData chunk).isEmpty then (buf, err, [], 0)
    else if r.len ≤ 0 then (buf, r.errno, [], 1)
    else
      let piece := (buf.getData chunk).take r.len.toNat
      let rec_ := sendLoop chunk (buf.advance r.len.toNat) r.errno rest
      (rec_.1, rec_.2.1, piece ++ rec_.2.2.1, rec_.2.2.2 + 1)

/-- A send oracle is well-formed for a buffer when every positive length it
returns is at most the length of the chunk that was handed to `tf_send`
(an OS cannot send more bytes than it was given). -/
def sendOracleOk (chunk : Nat) : TSendBuffer → List SendRes → Bool
  | _, [] => true
  | buf, r :: rest =>
    if (buf.getData chunk).isEmpty then true
    else if r.len ≤ 0 then true
    else
      decide (r.len.toNat ≤ (buf.getData chunk).length) &&
        sendOracleOk chunk (buf.advance r.len.toNat) rest

/-- Outcome of `TEpollSocket::send`. -/
structure SendOutcome where
  state : TEpollSocket
  ret : Int
  sent : List Nat
  destroyed : List TSendBuffer
  modified : Bool
  syscalls : Nat
  log : LogLevel
deriving DecidableEq, Repr

/-- `TEpollSocket::send()`: return success at once when the queue is empty
or `deleting` is set; otherwise drain the head buffer through `sendLoop`,
classify the captured errno (`0`/`EAGAIN` no error; `EPIPE` sentinel and
debug log; anything else sentinel and error log), flush-and-dequeue the head
when it is fully consumed or a terminal error occurred, and re-register
read+write edge-triggered interest (`modified`) when the errno was not
`EAGAIN` and the queue is still non-empty. -/
def send (chunk : Nat) (s : TEpollSocket) (oracle : List SendRes) : SendOutcome :=
  match s.sendBuf with
  | [] => ⟨s, 0, [], [], false, 0, LogLevel.noLog⟩
  | buf :: rest =>
    if s.deleting then ⟨s, 0, [], [], false, 0, LogLevel.noLog⟩
    else
      let r := sendLoop chunk buf 0 oracle
      let buf1 := r.1
      let err := r.2.1
      let sent := r.2.2.1
      let ncalls := r.2.2.2
      let ok := err = 0 ∨ err = EAGAIN
      let ret : Int := if ok then 0 else -1
      let log := if ok then LogLevel.noLog
                 else if err = EPIPE then LogLevel.debugLog
                 else LogLevel.errorLog
      let buf2 := if ok then buf1 else buf1.setSentinel
      if buf2.atEnd || ret < 0 then
        ⟨{ s with sendBuf := rest }, ret, sent, [buf2.flush],
          (err != EAGAIN) && !rest.isEmpty, ncalls, log⟩
      else
        ⟨{ s with sendBuf := buf2 :: rest }, ret, sent, [],
          err != EAGAIN, ncalls, log⟩

end TEpollSocket

/-- Following the claim's words (for comparison with `bufferedBytes`): the
sum over queued buffers of the remaining unsent length as the claim states
it — "its in-memory size minus its cursor, or for file-backed buffers its
file size minus its cursor". -/
def claimRemainingBytes (s : TEpollSocket) : Int :=
  (s.sendBuf.map fun d =>
    match d.bodyFile with
    | none => (d.arrayBuffer.length : Int) - d.cursor
    | some f => (f.length : Int) - d.cursor).sum

/-- The remaining unsent length of the queue measured against each buffer's
full payload (header plus file body): payload size minus cursor. -/
def remainingUnsent (s : TEpollSocket) : Int :=
  (s.sendBuf.map fun d => (d.payload.length : Int) - d.cursor).sum

/-- Total bytes already consumed (cursor positions) across the queue. -/
def consumedBytes (s : TEpollSocket) : Int :=
  (s.sendBuf.map fun d => (d.cursor : Int)).sum

/-- A concrete in-memory outbound buffer, used in witness scenarios. -/
def sampleBuf (bytes : List Nat) (cursor : Nat) : TSendBuffer :=
  { arrayBuffer := bytes, bodyFile := none, autoRemove := false, cursor := cursor,
    logger := { responseBytes := 0, written := false } }

/-- A concrete socket state with a given send queue, used in witness scenarios. -/
def sampleSock (q : List TSendBuffer) : TEpollSocket :=
  { deleting := false, myWorkerCounter := 0, sd := 5, clientAddr := 9,
    recvBuf := [], sendBuf := q }

/-! ## Basic lemmas about the embedding -/

namespace TSendBuffer

@[simp]
theorem payload_advance (b : TSendBuffer) (len : Nat) :
    (b.advance len).payload = b.payload := rfl

@[simp]
theorem cursor_advance (b : TSendBuffer) (len : Nat) :
    (b.advance len).cursor = b.cursor + len := rfl

@[simp]
theorem payload_setSentinel (b : TSendBuffer) :
    b.setSentinel.payload = b.payload := rfl

@[simp]
theorem atEnd_setSentinel (b : TSendBuffer) :
    b.setSentinel.atEnd = b.atEnd := rfl

end TSendBuffer

/-- The receive loop only ever appends to the buffer it is given. -/
theorem recvLoop_extends (oracle : List TEpollSocket.RecvRes) :
    ∀ acc : List Nat, ∃ t, (TEpollSocket.recvLoop acc oracle).1 = acc ++ t := by
  induction oracle with
  | nil => exact fun acc => ⟨[], by simp [TEpollSocket.recvLoop]⟩
  | cons r rest ih =>
    intro acc
    by_cases h : r.len ≤ 0
    · exact ⟨[], by simp [TEpollSocket.recvLoop, h]⟩
    · obtain ⟨t, ht⟩ := ih (acc ++ r.bytes.take r.len.toNat)
      exact ⟨r.bytes.take r.len.toNat ++ t, by
        simp [TEpollSocket.recvLoop, h, ht]⟩

/-- The receive loop consumes every successful read before it stops: on an
oracle made of a positive prefix followed by a non-positive result, it
appends all the prefix's bytes and reports the non-positive result's errno. -/
theorem recvLoop_drain (r : TEpollSocket.RecvRes) (rest : List TEpollSocket.RecvRes)
    (hr : r.len ≤ 0) :
    ∀ (pos : List TEpollSocket.RecvRes) (acc : List Nat), (∀ x ∈ pos, 0 < x.len) →
      TEpollSocket.recvLoop acc (pos ++ r :: rest) =
        (acc ++ (pos.map fun x => x.bytes.take x.len.toNat).flatten, some r.errno) := by
  intro pos
  induction pos with
  | nil => intro acc _; simp [TEpollSocket.recvLoop, hr]
  | cons p t ih =>
    intro acc hp
    have hp0 : 0 < p.len := hp p (by simp)
    have hrec := ih (acc ++ p.bytes.take p.len.toNat) (fun x hx => hp x (by simp [hx]))
    simp [TEpollSocket.recvLoop, not_le.mpr hp0, hrec]

/-! ## Claim theorems -/

/-- C2: `deleteLater` sets the deleting flag and is idempotent; destruction
is triggered at once exactly when the worker counter is zero at that
instant; destruction closes the descriptor, empties the queue and destroys
every queued outbound buffer exactly as it was queued — in particular
without flushing its access-log record. -/
theorem C2_deleteLater_spec (s : TEpollSocket) :
    s.deleteLater.1.deleting = true ∧
    s.deleteLater.1.deleteLater = s.deleteLater ∧
    (s.deleteLater.2 = true ↔ s.myWorkerCounter = 0) ∧
    s.deleteLater.1.destruct.2 = s.sendBuf ∧
    s.deleteLater.1.destruct.1.sendBuf = [] ∧
    (0 < s.sd → s.deleteLater.1.destruct.1.sd = 0) := by
  refine ⟨rfl, rfl, by simp [TEpollSocket.deleteLater], rfl, rfl, ?_⟩
  intro h
  simp [TEpollSocket.deleteLater, TEpollSocket.destruct, TEpollSocket.close, h]

/-- C2 witness: a socket with open descriptor, zero workers and one queued
unflushed buffer is destroyed at once; the destroyed buffer is returned
unflushed and the descriptor ends up closed. -/
theorem C2_witness :
    0 < (sampleSock [sampleBuf [1, 2] 0]).sd ∧
    (sampleSock [sampleBuf [1, 2] 0]).deleteLater.1.destruct.1.sd = 0 :=
  ⟨by decide, (C2_deleteLater_spec (sampleSock [sampleBuf [1, 2] 0])).2.2.2.2.2 (by decide)⟩

/-- C7: once the deleting flag is set, `send` returns success immediately
with the state untouched, no bytes transmitted, no buffer destroyed, no
re-registration and no syscall; and `sendData` (both overloads),
`disconnect` and `switchToWebSocket` dispatch nothing. -/
theorem C7_deleting_no_new_work (chunk : Nat) (s : TEpollSocket)
    (oracle : List TEpollSocket.SendRes) (hdr data : List Nat) (ar : Bool)
    (h : s.deleting = true) :
    s.send chunk oracle = ⟨s, 0, [], [], false, 0, LogLevel.noLog⟩ ∧
    s.sendDataFile hdr ar = none ∧
    s.sendData data = none ∧
    s.disconnect = none ∧
    s.switchToWebSocket = none := by
  refine ⟨?_, ?_, ?_, ?_, ?_⟩
  · cases hq : s.sendBuf <;> simp [TEpollSocket.send, hq, h]
  · simp [TEpollSocket.sendDataFile, h]
  · simp [TEpollSocket.sendData, h]
  · simp [TEpollSocket.disconnect, h]
  · simp [TEpollSocket.switchToWebSocket, h]

/-- C7 witness: a deleting socket with a queued buffer: `send` is an
identity no-op returning success and `disconnect` dispatches nothing. -/
theorem C7_witness :
    ({ sampleSock [sampleBuf [1] 0] with deleting := true } : TEpollSocket).deleting = true ∧
    ({ sampleSock [sampleBuf [1] 0] with deleting := true } : TEpollSocket).send 4
        [{ len := 1, errno := 0 }] =
      ⟨{ sampleSock [sampleBuf [1] 0] with deleting := true }, 0, [], [], false, 0,
        LogLevel.noLog⟩ ∧
    ({ sampleSock [sampleBuf [1] 0] with deleting := true } : TEpollSocket).disconnect = none :=
  ⟨rfl,
    (C7_deleting_no_new_work 4 { sampleSock [sampleBuf [1] 0] with deleting := true }
      [{ len := 1, errno := 0 }] [] [] false rfl).1,
    (C7_deleting_no_new_work 4 { sampleSock [sampleBuf [1] 0] with deleting := true }
      [{ len := 1, errno := 0 }] [] [] false rfl).2.2.2.1⟩

/-- C8 counterexample: `tf_accept4` returning descriptor `0` is a success
(only a negative return is a failure), yet `accept` constructs no handle
and triggers no buffer-sizing initialization — refuting the claim that
every successful accept constructs a Socket Handle. -/
theorem C8_counterexample :
    ¬ ((0 : Int) < 0) ∧
    (TEpollSocket.accept 0 0 7).handle = none ∧
    (TEpollSocket.accept 0 0 7).initTriggered = false ∧
    (TEpollSocket.accept 0 0 7).log = LogLevel.noLog := by
  refine ⟨by decide, ?_, ?_, ?_⟩ <;>
    simp [TEpollSocket.accept, TEpollSocket.create]

/-- C8 (amended): `accept` returns none with no warning on a would-block
failure, none with a warning on any other failure, and on success
constructs a handle from the new descriptor and peer address and triggers
buffer-sizing initialization only when the descriptor is strictly
positive; a success returning descriptor `0` yields no handle. -/
theorem C8_accept_amended (fd : Int) (errno : Nat) (addr : Nat) :
    TEpollSocket.accept fd errno addr =
      if fd < 0 then
        { handle := none, initTriggered := false,
          log := if errno = EAGAIN then LogLevel.noLog else LogLevel.warnLog }
      else if 0 < fd then
        { handle := some (mkTEpollSocket fd addr), initTriggered := true,
          log := LogLevel.noLog }
      else
        { handle := none, initTriggered := false, log := LogLevel.noLog } := by
  by_cases h1 : fd < 0
  · by_cases h2 : errno = EAGAIN <;>
      simp [TEpollSocket.accept, TEpollSocket.create, h1, h2]
  · by_cases h3 : 0 < fd <;>
      simp [TEpollSocket.accept, TEpollSocket.create, h1, h3]

/-- C9: `create` rejects every non-positive descriptor — including the
valid POSIX descriptor `0` — returning no handle and not triggering
buffer-sizing initialization; consequently an accept that yields
descriptor `0` produces no handle. -/
theorem C9_create_nonpositive (fd : Int) (addr : Nat) (errno : Nat) (h : fd ≤ 0) :
    TEpollSocket.create fd addr = (none, false) ∧
    (TEpollSocket.accept 0 errno addr).handle = none ∧
    (TEpollSocket.accept 0 errno addr).initTriggered = false := by
  refine ⟨?_, ?_, ?_⟩
  · simp [TEpollSocket.create, not_lt.mpr h]
  · simp [TEpollSocket.accept, TEpollSocket.create]
  · simp [TEpollSocket.accept, TEpollSocket.create]

/-- C9 witness: `create` at descriptor `0` constructs nothing. -/
theorem C9_witness :
    ((0 : Int) ≤ 0) ∧ TEpollSocket.create 0 3 = (none, false) :=
  ⟨by decide, (C9_create_nonpositive 0 3 5 (by decide)).1⟩

/-- C10: `recv` only appends to the receive buffer — the prior contents
stay as a prefix whatever the oracle (so also when the call classifies a
disconnect) — and no other field of the socket is modified. -/
theorem C10_recv_append_only (s : TEpollSocket) (oracle : List TEpollSocket.RecvRes) :
    (∃ t, (s.recv oracle).1.recvBuf = s.recvBuf ++ t) ∧
    (s.recv oracle).1.sendBuf = s.sendBuf ∧
    (s.recv oracle).1.sd = s.sd ∧
    (s.recv oracle).1.deleting = s.deleting ∧
    (s.recv oracle).1.myWorkerCounter = s.myWorkerCounter ∧
    (s.recv oracle).1.clientAddr = s.clientAddr := by
  exact ⟨recvLoop_extends oracle s.recvBuf, rfl, rfl, rfl, rfl, rfl⟩

/-- C3: on an oracle of successful reads followed by a non-positive read,
`recv` appends every successfully read byte (it never stops while reads
keep succeeding) and then classifies the captured errno: `EAGAIN` is
success with no log; errno `0` (zero-length read) or `ECONNRESET` is a
disconnect with a debug-level log only; anything else is a disconnect with
an error-level log. -/
theorem C3_recv_classification (s : TEpollSocket) (pos : List TEpollSocket.RecvRes)
    (r : TEpollSocket.RecvRes) (rest : List TEpollSocket.RecvRes)
    (hpos : ∀ x ∈ pos, 0 < x.len) (hr : r.len ≤ 0) :
    (s.recv (pos ++ r :: rest)).1.recvBuf =
      s.recvBuf ++ (pos.map fun x => x.bytes.take x.len.toNat).flatten ∧
    (r.errno = EAGAIN → (s.recv (pos ++ r :: rest)).2 = some (0, LogLevel.noLog)) ∧
    (r.errno = 0 ∨ r.errno = ECONNRESET →
      (s.recv (pos ++ r :: rest)).2 = some (-1, LogLevel.debugLog)) ∧
    (r.errno ≠ EAGAIN → r.errno ≠ 0 → r.errno ≠ ECONNRESET →
      (s.recv (pos ++ r :: rest)).2 = some (-1, LogLevel.errorLog)) := by
  have hd := recvLoop_drain r rest hr pos s.recvBuf hpos
  refine ⟨?_, ?_, ?_, ?_⟩
  · simp [TEpollSocket.recv, hd]
  · intro h
    simp [TEpollSocket.recv, hd, TEpollSocket.recvClassify, h]
  · rintro (h | h) <;>
      simp [TEpollSocket.recv, hd, TEpollSocket.recvClassify, h, EAGAIN, ECONNRESET]
  · intro h1 h2 h3
    simp [TEpollSocket.recv, hd, TEpollSocket.recvClassify, h1, h2, h3]

/-- C3 witness: one successful two-byte read followed by a would-block
result drains both bytes into the buffer and returns success with no log. -/
theorem C3_witness :
    (∀ x ∈ [({ len := 2, errno := 0, bytes := [5, 6] } : TEpollSocket.RecvRes)], 0 < x.len) ∧
    (({ len := -1, errno := 11, bytes := [] } : TEpollSocket.RecvRes).len ≤ 0) ∧
    ((sampleSock []).recv
        ([{ len := 2, errno := 0, bytes := [5, 6] }] ++
          ({ len := -1, errno := 11, bytes := [] } : TEpollSocket.RecvRes) :: [])).2 =
      some (0, LogLevel.noLog) :=
  ⟨by decide, by decide,
    (C3_recv_classification (sampleSock []) [{ len := 2, errno := 0, bytes := [5, 6] }]
        { len := -1, errno := 11, bytes := [] } [] (by decide) (by decide)).2.1 rfl⟩

/-- One `bufferedBytes` step adds the full payload length of the buffer. -/
theorem bufferedStep_eq (a : Int) (d : TSendBuffer) :
    TEpollSocket.bufferedStep a d = a + d.payload.length := by
  cases hb : d.bodyFile with
  | none => simp [TEpollSocket.bufferedStep, TSendBuffer.payload, hb]
  | some f =>
    simp [TEpollSocket.bufferedStep, TSendBuffer.payload, hb]
    ring

/-- `bufferedBytes` unfolded: the fold equals the remaining-unsent sum
plus the consumed-bytes sum, buffer by buffer. -/
theorem bufferedBytes_fold (l : List TSendBuffer) :
    ∀ a : Int,
      l.foldl TEpollSocket.bufferedStep a =
        a + (l.map fun d => (d.payload.length : Int) - d.cursor).sum +
          (l.map fun d => (d.cursor : Int)).sum := by
  induction l with
  | nil => intro a; simp
  | cons d t ih =>
    intro a
    simp only [List.foldl_cons, List.map_cons, List.sum_cons, ih, bufferedStep_eq]
    omega

/-- C6 counterexample: a queue holding one in-memory buffer of 3 bytes with
2 bytes already consumed: `bufferedBytes` reports 3, the claim's
remaining-unsent sum is 1. -/
theorem C6_counterexample :
    (sampleSock [sampleBuf [1, 2, 3] 2]).bufferedBytes = 3 ∧
    claimRemainingBytes (sampleSock [sampleBuf [1, 2, 3] 2]) = 1 ∧
    (sampleSock [sampleBuf [1, 2, 3] 2]).bufferedBytes ≠
      claimRemainingBytes (sampleSock [sampleBuf [1, 2, 3] 2]) := by
  refine ⟨?_, ?_, ?_⟩ <;> decide

/-- C6 (amended): `bufferedBytes` ignores the cursors — it returns the
remaining-unsent sum (measured against each buffer's full payload) plus
the bytes already consumed across the queue, so it equals the
remaining-unsent sum only when nothing has been consumed. -/
theorem C6_bufferedBytes_amended (s : TEpollSocket) :
    s.bufferedBytes = remainingUnsent s + consumedBytes s := by
  unfold TEpollSocket.bufferedBytes remainingUnsent consumedBytes
  simpa using bufferedBytes_fold s.sendBuf 0

/-- The write loop preserves the head buffer's payload, moves its cursor
forward only, and — whenever every positive oracle length is bounded by
the chunk it was handed — transmits exactly the payload slice between the
initial and final cursor. -/
theorem sendLoop_spec (chunk : Nat) (oracle : List TEpollSocket.SendRes) :
    ∀ (buf : TSendBuffer) (err : Nat),
      TEpollSocket.sendOracleOk chunk buf oracle = true →
      (TEpollSocket.sendLoop chunk buf err oracle).1.payload = buf.payload ∧
      buf.cursor ≤ (TEpollSocket.sendLoop chunk buf err oracle).1.cursor ∧
      (TEpollSocket.sendLoop chunk buf err oracle).2.2.1 =
        (buf.payload.drop buf.cursor).take
          ((TEpollSocket.sendLoop chunk buf err oracle).1.cursor - buf.cursor) := by
  induction oracle with
  | nil => intro buf err _; simp [TEpollSocket.sendLoop]
  | cons r rest ih =>
    intro buf err hok
    by_cases h1 : (buf.getData chunk).isEmpty
    · simp [TEpollSocket.sendLoop, h1]
    · by_cases h2 : r.len ≤ 0
      · simp [TEpollSocket.sendLoop, h1, h2]
      · simp [TEpollSocket.sendOracleOk, h1, h2] at hok
        obtain ⟨hlen, hrest⟩ := hok
        obtain ⟨hp, hc, hs⟩ := ih (buf.advance r.len.toNat) r.errno hrest
        rw [TSendBuffer.payload_advance] at hp
        rw [TSendBuffer.cursor_advance] at hc
        rw [TSendBuffer.payload_advance, TSendBuffer.cursor_advance] at hs
        have hlen' : r.len.toNat ≤ (buf.getData chunk).length := Int.toNat_le.mpr hlen
        have hchunk : r.len.toNat ≤ chunk := by
          refine le_trans hlen' ?_
          simp [TSendBuffer.getData]
        have hpiece : (buf.getData chunk).take r.len.toNat =
            (buf.payload.drop buf.cursor).take r.len.toNat := by
          rw [TSendBuffer.getData, List.take_take, Nat.min_eq_left hchunk]
        refine ⟨?_, ?_, ?_⟩
        · simpa [TEpollSocket.sendLoop, h1, h2] using hp
        · have := hc
          simp only [TEpollSocket.sendLoop, h1, h2, if_false, Bool.false_eq_true]
          omega
        · have hsplit : (TEpollSocket.sendLoop chunk (buf.advance r.len.toNat) r.errno rest).1.cursor
              - buf.cursor =
              r.len.toNat +
                ((TEpollSocket.sendLoop chunk (buf.advance r.len.toNat) r.errno rest).1.cursor -
                  (buf.cursor + r.len.toNat)) := by omega
          simp only [TEpollSocket.sendLoop, h1, h2, if_false, Bool.false_eq_true]
          rw [hsplit, List.take_add, hs, hpiece, List.drop_drop]

/-- C5: re-registration of read+write edge-triggered interest happens
exactly when the captured errno is not `EAGAIN` and the queue is still
non-empty after finalization; the early-return paths (empty queue,
deleting flag) never re-register. -/
theorem C5_rearm_iff (chunk : Nat) (s : TEpollSocket) (oracle : List TEpollSocket.SendRes) :
    (s.sendBuf = [] → (s.send chunk oracle).modified = false) ∧
    (s.deleting = true → (s.send chunk oracle).modified = false) ∧
    (∀ b rest, s.sendBuf = b :: rest → s.deleting = false →
      ((s.send chunk oracle).modified = true ↔
        ((TEpollSocket.sendLoop chunk b 0 oracle).2.1 ≠ EAGAIN ∧
          (s.send chunk oracle).state.sendBuf ≠ []))) := by
  refine ⟨?_, ?_, ?_⟩
  · intro h
    simp [TEpollSocket.send, h]
  · intro h
    cases hq : s.sendBuf <;> simp [TEpollSocket.send, hq, h]
  · intro b rest hq hd
    by_cases hE :
        ((if (TEpollSocket.sendLoop chunk b 0 oracle).2.1 = 0 ∨
              (TEpollSocket.sendLoop chunk b 0 oracle).2.1 = EAGAIN then
            (TEpollSocket.sendLoop chunk b 0 oracle).1
          else (TEpollSocket.sendLoop chunk b 0 oracle).1.setSentinel).atEnd ||
          decide ((if (TEpollSocket.sendLoop chunk b 0 oracle).2.1 = 0 ∨
              (TEpollSocket.sendLoop chunk b 0 oracle).2.1 = EAGAIN then (0 : Int)
            else -1) < 0)) = true
    · simp [TEpollSocket.send, hq, hd, hE]
    · simp [TEpollSocket.send, hq, hd, hE]

/-- C5 witness: a completed head with a second buffer still queued and no
would-block errno triggers re-registration. -/
theorem C5_witness :
    (sampleSock [sampleBuf [1, 2] 0, sampleBuf [9] 0]).sendBuf =
      sampleBuf [1, 2] 0 :: [sampleBuf [9] 0] ∧
    (sampleSock [sampleBuf [1, 2] 0, sampleBuf [9] 0]).deleting = false ∧
    ((sampleSock [sampleBuf [1, 2] 0, sampleBuf [9] 0]).send 4
        [{ len := 2, errno := 0 }]).modified = true :=
  ⟨rfl, rfl,
    ((C5_rearm_iff 4 (sampleSock [sampleBuf [1, 2] 0, sampleBuf [9] 0])
          [{ len := 2, errno := 0 }]).2.2 (sampleBuf [1, 2] 0) [sampleBuf [9] 0] rfl
        rfl).mpr
      ⟨by decide, by decide⟩⟩

/-- C4: whenever the write loop ends with `EPIPE` — in particular after
transmitting only part of the head buffer — the logger's byte count is set
to the failure sentinel `-1`, the head buffer is flushed, removed from the
queue and destroyed (never retried), the call returns the disconnect
signal `-1`, and only a debug-level log is emitted. -/
theorem C4_broken_pipe (chunk : Nat) (s : TEpollSocket) (oracle : List TEpollSocket.SendRes)
    (b : TSendBuffer) (rest : List TSendBuffer)
    (hq : s.sendBuf = b :: rest) (hd : s.deleting = false)
    (he : (TEpollSocket.sendLoop chunk b 0 oracle).2.1 = EPIPE) :
    (s.send chunk oracle).ret = -1 ∧
    (s.send chunk oracle).state.sendBuf = rest ∧
    (s.send chunk oracle).destroyed =
      [(TEpollSocket.sendLoop chunk b 0 oracle).1.setSentinel.flush] ∧
    (∀ d ∈ (s.send chunk oracle).destroyed,
      d.logger.responseBytes = -1 ∧ d.logger.written = true) ∧
    (s.send chunk oracle).log = LogLevel.debugLog := by
  simp [TEpollSocket.send, hq, hd, he, EPIPE, EAGAIN, TSendBuffer.setSentinel,
    TSendBuffer.flush]

/-- C4 witness: a 5-byte buffer whose send transmits 2 bytes and then hits
broken pipe: sentinel set, buffer dequeued, disconnect signalled. -/
theorem C4_witness :
    (TEpollSocket.sendLoop 4 (sampleBuf [1, 2, 3, 4, 5] 0) 0
        [{ len := 2, errno := 0 }, { len := -1, errno := 32 }]).2.1 = EPIPE ∧
    ((sampleSock [sampleBuf [1, 2, 3, 4, 5] 0]).send 4
        [{ len := 2, errno := 0 }, { len := -1, errno := 32 }]).ret = -1 ∧
    ((sampleSock [sampleBuf [1, 2, 3, 4, 5] 0]).send 4
        [{ len := 2, errno := 0 }, { len := -1, errno := 32 }]).state.sendBuf = [] :=
  ⟨by decide,
    (C4_broken_pipe 4 (sampleSock [sampleBuf [1, 2, 3, 4, 5] 0])
        [{ len := 2, errno := 0 }, { len := -1, errno := 32 }]
        (sampleBuf [1, 2, 3, 4, 5] 0) [] rfl rfl (by decide)).1,
    (C4_broken_pipe 4 (sampleSock [sampleBuf [1, 2, 3, 4, 5] 0])
        [{ len := 2, errno := 0 }, { len := -1, errno := 32 }]
        (sampleBuf [1, 2, 3, 4, 5] 0) [] rfl rfl (by decide)).2.1⟩

/-- C1: a `send` call transmits bytes only from the head buffer — exactly
the payload slice between the head's cursor before and after the loop; the
tail of the queue is preserved verbatim (strict FIFO — no later buffer is
ever transmitted or touched); the head is flushed-and-removed exactly when
it is fully consumed or a terminal errno (neither `0` nor `EAGAIN`) was
captured; and every buffer destroyed by the call has had its access-log
record flushed. -/
theorem C1_send_strict_fifo (chunk : Nat) (s : TEpollSocket)
    (oracle : List TEpollSocket.SendRes) (b : TSendBuffer) (rest : List TSendBuffer)
    (hq : s.sendBuf = b :: rest) (hd : s.deleting = false)
    (hok : TEpollSocket.sendOracleOk chunk b oracle = true) :
    ((s.send chunk oracle).sent =
      (b.payload.drop b.cursor).take
        ((TEpollSocket.sendLoop chunk b 0 oracle).1.cursor - b.cursor)) ∧
    ((s.send chunk oracle).state.sendBuf = rest ∨
      (∃ b', (s.send chunk oracle).state.sendBuf = b' :: rest)) ∧
    (((s.send chunk oracle).state.sendBuf = rest ∧
        (s.send chunk oracle).destroyed.length = 1) ↔
      ((TEpollSocket.sendLoop chunk b 0 oracle).1.atEnd = true ∨
        ((TEpollSocket.sendLoop chunk b 0 oracle).2.1 ≠ 0 ∧
          (TEpollSocket.sendLoop chunk b 0 oracle).2.1 ≠ EAGAIN))) ∧
    (∀ d ∈ (s.send chunk oracle).destroyed, d.logger.written = true) := by
  obtain ⟨hp, hc, hs⟩ := sendLoop_spec chunk oracle b 0 hok
  by_cases hP : (TEpollSocket.sendLoop chunk b 0 oracle).2.1 = 0 ∨
      (TEpollSocket.sendLoop chunk b 0 oracle).2.1 = EAGAIN
  · by_cases hE : (TEpollSocket.sendLoop chunk b 0 oracle).1.atEnd = true
    · refine ⟨?_, ?_, ?_, ?_⟩ <;>
        simp [TEpollSocket.send, hq, hd, hP, hE, hs, TSendBuffer.flush]
    · refine ⟨?_, ?_, ?_, ?_⟩ <;>
        simp [TEpollSocket.send, hq, hd, hP, hE, hs, TSendBuffer.flush]
      exact fun h => hP.resolve_left h
  · push_neg at hP
    refine ⟨?_, ?_, ?_, ?_⟩ <;>
      simp [TEpollSocket.send, hq, hd, hP.1, hP.2, hs, TSendBuffer.flush]

/-- C1 witness: two queued buffers; the head transmits two of its three
bytes and then hits would-block — exactly those two head bytes are sent. -/
theorem C1_witness :
    (sampleSock [sampleBuf [1, 2, 3] 0, sampleBuf [9] 0]).sendBuf =
      sampleBuf [1, 2, 3] 0 :: [sampleBuf [9] 0] ∧
    (sampleSock [sampleBuf [1, 2, 3] 0, sampleBuf [9] 0]).deleting = false ∧
    TEpollSocket.sendOracleOk 2 (sampleBuf [1, 2, 3] 0)
      [{ len := 2, errno := 0 }, { len := -1, errno := 11 }] = true ∧
    ((sampleSock [sampleBuf [1, 2, 3] 0, sampleBuf [9] 0]).send 2
        [{ len := 2, errno := 0 }, { len := -1, errno := 11 }]).sent = [1, 2] :=
  ⟨rfl, rfl, by decide,
    (C1_send_strict_fifo 2 (sampleSock [sampleBuf [1, 2, 3] 0, sampleBuf [9] 0])
        [{ len := 2, errno := 0 }, { len := -1, errno := 11 }]
        (sampleBuf [1, 2, 3] 0) [sampleBuf [9] 0] rfl rfl (by decide)).1⟩

end Epoll
